import Mathlib

/-!
Verification of the Prema 6000 DMM driver
(`pymeasure/instruments/prema/prema6000.py`).

The driver's logic is a fixed-offset status-string decoder
(`Prema6000.state_to_dict`) plus declarative value-mapping tables used by
property setters.  Strings are modelled as `List Char`; per the repository
documentation the instrument protocol is ASCII, so `int(c)` on a single
character succeeds exactly on the characters '0'-'9'.
-/

namespace Prema6000

/-- Python exception kinds the driver can raise: `KeyError k` from a dict
lookup with a missing key, `IndexError` from out-of-range string indexing,
`ValueError` from `int()` on a non-numeric string, `ValueError` raised by
the `strict_discrete_set` validator (invalid choice), and `TypeError`
from applying a non-callable object. -/
inductive PyErr where
  | keyError (k : List Char)
  | indexError
  | valueError
  | invalidChoice
  | typeError
  deriving DecidableEq, Repr

/-- A Python value stored in the decoded state dict: the multiplexer-channel
field is either the string `"off"` or an `int`, which are distinct Python
values. -/
inductive PyVal where
  | str (s : List Char)
  | int (n : Nat)
  deriving DecidableEq, Repr

/-- Equality of `Except` results is decidable when both components are;
used to evaluate the decoder on concrete inputs. -/
instance {ε α : Type} [DecidableEq ε] [DecidableEq α] :
    DecidableEq (Except ε α) := fun a b =>
  match a, b with
  | .error e₁, .error e₂ =>
    if h : e₁ = e₂ then isTrue (by rw [h]) else isFalse (fun hh => by cases hh; exact h rfl)
  | .error _, .ok _ => isFalse (fun hh => by cases hh)
  | .ok _, .error _ => isFalse (fun hh => by cases hh)
  | .ok a₁, .ok a₂ =>
    if h : a₁ = a₂ then isTrue (by rw [h]) else isFalse (fun hh => by cases hh; exact h rfl)

/-- Python slicing `s[a:b]` with nonnegative bounds: never raises, clamps to
the string length. -/
def pySlice (l : List Char) (a b : Nat) : List Char :=
  (l.drop a).take (b - a)

/-- Python indexing `s[i]` for nonnegative `i`: raises `IndexError` when the
index is out of range. -/
def pyIndex (l : List Char) (i : Nat) : Except PyErr Char :=
  match l.get? i with
  | some c => .ok c
  | none => .error .indexError

/-- First-match association-list lookup; models lookup in a Python dict
literal (whose keys are pairwise distinct here). -/
def assocLookup {α β : Type} [DecidableEq α] (tbl : List (α × β)) (k : α) : Option β :=
  match tbl with
  | [] => none
  | (k', v) :: rest => if k' = k then some v else assocLookup rest k

/-- Python `d[k]` on a dict: raises `KeyError k` when the key is absent. -/
def dictGet (tbl : List (List Char × List Char)) (k : List Char) : Except PyErr (List Char) :=
  match assocLookup tbl k with
  | some v => .ok v
  | none => .error (.keyError k)

/-- Python `int(c)` on a one-character ASCII string: the digit value for
'0'-'9', `ValueError` otherwise. -/
def pyIntOfChar (c : Char) : Except PyErr Nat :=
  if c.isDigit then .ok (c.toNat - 48) else .error .valueError

/-- The `Prema6000.MODES` class attribute: symbolic mode name to
2-character instrument code. -/
def MODES : List (List Char × List Char) :=
  [("direct voltage".toList, "VD".toList),
   ("alternating voltage".toList, "VA".toList),
   ("2-wire resistance".toList, "O2".toList),
   ("4-wire resistance".toList, "O4".toList),
   ("direct current".toList, "ID".toList),
   ("alternating current".toList, "IA".toList),
   ("celsius".toList, "TC".toList),
   ("farenheit".toList, "TF".toList),
   ("kelvin".toList, "TK".toList)]

/-- The `CODE_TO_MODE` local table of `state_to_dict`: 2-character
instrument code back to symbolic mode name. -/
def CODE_TO_MODE : List (List Char × List Char) :=
  [("VD".toList, "direct voltage".toList),
   ("VA".toList, "alternating voltage".toList),
   ("O2".toList, "2-wire resistance".toList),
   ("O4".toList, "4-wire resistance".toList),
   ("ID".toList, "direct current".toList),
   ("IA".toList, "alternating current".toList),
   ("TC".toList, "celsius".toList),
   ("TF".toList, "farenheit".toList),
   ("TK".toList, "kelvin".toList)]

/-- The `INT_TIMES` local table of `state_to_dict`: integration-time code
to human-readable duration. -/
def INT_TIMES : List (List Char × List Char) :=
  [("T1".toList, "100 ms".toList),
   ("T2".toList, "1 s".toList),
   ("T3".toList, "1 s".toList),
   ("T4".toList, "10 s".toList)]

/-- `mode_to_code`: lookup in `MODES`. -/
def mode_to_code (m : List Char) : Option (List Char) :=
  assocLookup MODES m

/-- `code_to_mode`: lookup in `CODE_TO_MODE`. -/
def code_to_mode (c : List Char) : Option (List Char) :=
  assocLookup CODE_TO_MODE c

/-- The record built by `state_to_dict` (the Status Record): one field per
key of the Python `state_dict`, in insertion order.  The multiplexer
channel is a `PyVal` because the source stores either the string `"off"`
or an `int` under that key; the latest pressed key is the one-character
string `state_string[29]`. -/
structure StateDict where
  mode : List Char
  range : List Char
  autoranging : List Char
  integrationTime : List Char
  continuous : List Char
  srqStatus : List Char
  muxChannel : PyVal
  displayMode : List Char
  latestKey : Char
  deriving DecidableEq, Repr

/-- The multiplexer-channel expression
`"off" if channel == "O" else int(channel)`: the string `"off"` for `'O'`,
otherwise the character parsed as an integer (which may raise). -/
def muxOf (c : Char) : Except PyErr PyVal :=
  if c = 'O' then .ok (PyVal.str "off".toList)
  else (pyIntOfChar c).map PyVal.int

/-- `Prema6000.state_to_dict`, statement by statement.  Fallible steps
appear in source order: mode dict lookup, integration-time dict lookup,
`state_string[25]`, `int(channel)`, `state_string[27]` (first read by the
stray `print`), `state_string[29]`.  Infallible slices are bound with
`let`. -/
def state_to_dict (s : List Char) : Except PyErr StateDict :=
  match dictGet CODE_TO_MODE (pySlice s 12 14) with
  | .error e => .error e
  | .ok mode =>
    let range := pySlice s 14 16
    let autoranging := if pySlice s 16 18 = "A1".toList
      then "enabled".toList else "disabled".toList
    match dictGet INT_TIMES (pySlice s 18 20) with
    | .error e => .error e
    | .ok itime =>
      let continuous := if pySlice s 20 22 = "S1".toList
        then "started".toList else "stopped".toList
      let srq := if pySlice s 22 24 = "Q0".toList
        then "without".toList else "with".toList
      match pyIndex s 25 with
      | .error e => .error e
      | .ok channel =>
        match muxOf channel with
        | .error e => .error e
        | .ok mux =>
          match pyIndex s 27 with
          | .error e => .error e
          | .ok c27 =>
            let display := if c27 = '1' then "on".toList else "off".toList
            match pyIndex s 29 with
            | .error e => .error e
            | .ok key =>
              .ok ⟨mode, range, autoranging, itime, continuous, srq, mux, display, key⟩

/-- The offsets of the raw status string that `state_to_dict` reads: the
slices `[12:14]` through `[22:24]` cover offsets 12-23, and the single
indexings read offsets 25, 27 and 29. -/
def readOffsets : List Nat :=
  [12, 13, 14, 15, 16, 17, 18, 19, 20, 21, 22, 23, 25, 27, 29]

/-- A Python value supplied to a property setter.  The `autorange` value
table has both `bool` and `str` keys, so setter arguments are modelled as
this sum. -/
inductive PyKey where
  | pbool (b : Bool)
  | pstr (s : List Char)
  deriving DecidableEq, Repr

/-- Modelled from the spec: `strict_discrete_set` from
`pymeasure.instruments.validators` is not under src; per the spec it
validates a caller-supplied value by membership in the discrete set of
allowed values (the keys of the value table) and fails with an
invalid-choice error otherwise, before any command is sent. -/
def strict_discrete_set (value : PyKey) (values : List (PyKey × List Char)) :
    Except PyErr PyKey :=
  if values.any (fun p => p.1 = value) then .ok value else .error .invalidChoice

/-- The declarative arguments a property passes to `Instrument.control`
that matter for its setter: whether `strict_discrete_set` was passed as
validator, the value table, whether `map_values=True`, and whether the
`set_process` argument is an actual function (the `mode` property passes
the `set_mode` property descriptor instead, which is not callable). -/
structure ControlSpec where
  validator : Bool
  values : List (PyKey × List Char)
  map_values : Bool
  proc_callable : Bool

/-- Modelled from the spec: the setter path of `Instrument.control` (the
descriptor framework is not under src).  Per the spec a set validates the
caller-supplied symbolic value against the fixed set when a validator was
given, applies `set_process` (applying a non-callable property descriptor
fails with a type error), maps the value through the value table when
`map_values=True`, and only then formats the `"%s"` command.  The result
is the command string transmitted, or the error raised before anything
is transmitted. -/
def controlSet (c : ControlSpec) (v : PyKey) : Except PyErr (List Char) :=
  match (if c.validator then strict_discrete_set v c.values else .ok v) with
  | .error e => .error e
  | .ok v₁ =>
    match (if c.proc_callable then Except.ok v₁ else Except.error PyErr.typeError) with
    | .error e => .error e
    | .ok v₂ =>
      if c.map_values then
        match assocLookup c.values v₂ with
        | some code => .ok code
        | none => .error (.keyError [])
      else
        match v₂ with
        | .pstr s => .ok s
        | .pbool b => .ok (if b then "True".toList else "False".toList)

/-- The commands written to the adapter by one setter call: the formatted
command on success, nothing when the setter raised first. -/
def commandsSent (r : Except PyErr (List Char)) : List (List Char) :=
  match r with
  | .ok cmd => [cmd]
  | .error _ => []

/-- The value table of the `autorange` control:
`{True: "A1", False: "A0", "enabled": "A1", "disabled": "A0"}`. -/
def autorange_values : List (PyKey × List Char) :=
  [(.pbool true, "A1".toList), (.pbool false, "A0".toList),
   (.pstr "enabled".toList, "A1".toList), (.pstr "disabled".toList, "A0".toList)]

/-- The value table of the `integration_time` control:
`{"100ms": "T1", "1s": "T3", "10s": "T4"}`. -/
def integration_time_values : List (PyKey × List Char) :=
  [(.pstr "100ms".toList, "T1".toList), (.pstr "1s".toList, "T3".toList),
   (.pstr "10s".toList, "T4".toList)]

/-- The value table of the `old_mode` control: `MODES` with string keys. -/
def mode_values : List (PyKey × List Char) :=
  MODES.map (fun p => (PyKey.pstr p.1, p.2))

/-- The `autorange` setter: `strict_discrete_set` validator over
`autorange_values`, `map_values=True`, default (callable) `set_process`. -/
def set_autorange (v : PyKey) : Except PyErr (List Char) :=
  controlSet ⟨true, autorange_values, true, true⟩ v

/-- The `integration_time` setter: `strict_discrete_set` validator over
`integration_time_values`, `map_values=True`, default `set_process`. -/
def set_integration_time (v : PyKey) : Except PyErr (List Char) :=
  controlSet ⟨true, integration_time_values, true, true⟩ v

/-- The `old_mode` setter: `strict_discrete_set` validator over `MODES`,
`map_values=True`, default `set_process`. -/
def old_mode_set (v : PyKey) : Except PyErr (List Char) :=
  controlSet ⟨true, mode_values, true, true⟩ v

/-- The `mode` setter as the source constructs it: `Instrument.control`
receives no validator, no value table, no `map_values`, and
`set_process=set_mode` where `set_mode` is itself an `Instrument.setting`
property descriptor, not a function. -/
def mode_set (v : PyKey) : Except PyErr (List Char) :=
  controlSet ⟨false, [], false, false⟩ v

/-- The query command of the `voltage` measurement property. -/
def voltage_command : List Char := "P0".toList

/-- The query command of the `resistance` measurement property. -/
def resistance_command : List Char := "P0".toList

/-- The query command of the `current` measurement property. -/
def current_command : List Char := "P0".toList

/-- The query command of the `temperature` measurement property. -/
def temperature_command : List Char := "P0".toList

/-- `get_process` of the `voltage` property: `lambda x: x[:12]`. -/
def voltage_get_process (x : List Char) : List Char := pySlice x 0 12

/-- `get_process` of the `resistance` property: `lambda x: x[:12]`. -/
def resistance_get_process (x : List Char) : List Char := pySlice x 0 12

/-- `get_process` of the `current` property: `lambda x: x[:12]`. -/
def current_get_process (x : List Char) : List Char := pySlice x 0 12

/-- `get_process` of the `temperature` property: `lambda x: x[:12]`. -/
def temperature_get_process (x : List Char) : List Char := pySlice x 0 12

/-- A well-formed 30-character status string: filler `x` outside the read
offsets, `VD 02 A1 T3 S1 Q0` in the slice fields, `3`, `1`, `5` at
offsets 25, 27, 29. -/
def sampleStatus : List Char := "xxxxxxxxxxxxVD02A1T3S1Q0x3x1x5".toList

/-- The record `state_to_dict` produces on `sampleStatus`. -/
def sampleRecord : StateDict :=
  ⟨"direct voltage".toList, "02".toList, "enabled".toList, "1 s".toList,
   "started".toList, "without".toList, PyVal.int 3, "on".toList, '5'⟩

/-- `sampleStatus` with every filler position changed (`y` instead of
`x`): agrees with `sampleStatus` exactly on `readOffsets`. -/
def sampleStatusAlt : List Char := "yyyyyyyyyyyyVD02A1T3S1Q0y3y1y5".toList

/-- A 29-character string whose decoded fields are all valid: the first
29 characters of `sampleStatus`. -/
def sampleStatus29 : List Char := "xxxxxxxxxxxxVD02A1T3S1Q0x3x1x".toList

/-- `sampleStatus` with the multiplexer character at offset 25 set to
`'O'`. -/
def muxOffStatus : List Char := "xxxxxxxxxxxxVD02A1T3S1Q0xOx1x5".toList

/-- `sampleStatus` with an unrecognized integration-time code `T9` at
offsets `[18:20]`. -/
def badTimeStatus : List Char := "xxxxxxxxxxxxVD02A1T9S1Q0x3x1x5".toList

end Prema6000

namespace Prema6000

/-- Successful `pyIndex` inverts to a successful `get?`. -/
theorem pyIndex_ok {s : List Char} {i : Nat} {c : Char}
    (h : pyIndex s i = Except.ok c) : s.get? i = some c := by
  unfold pyIndex at h
  split at h
  · rename_i c' hg
    cases h
    exact hg
  · exact absurd h (by simp)

/-- `pyIndex` succeeds below the length. -/
theorem pyIndex_lt {s : List Char} {i : Nat} (h : i < s.length) :
    pyIndex s i = Except.ok (s.get ⟨i, h⟩) := by
  unfold pyIndex
  rw [List.get?_eq_get h]

/-- A length-2 Python slice, element by element. -/
theorem pySlice_pair {l : List Char} {a : Nat} {c d : Char}
    (hc : l.get? a = some c) (hd : l.get? (a + 1) = some d) :
    pySlice l a (a + 2) = [c, d] := by
  obtain ⟨ha, hc⟩ := List.get?_eq_some.mp hc
  obtain ⟨hb, hd⟩ := List.get?_eq_some.mp hd
  unfold pySlice
  have h2 : a + 2 - a = 2 := by omega
  rw [h2, List.drop_eq_getElem_cons ha, List.drop_eq_getElem_cons hb]
  subst hc hd
  rfl

/-- A dict lookup succeeds exactly when the key is present. -/
theorem dictGet_ok_iff {tbl : List (List Char × List Char)} {k v : List Char} :
    dictGet tbl k = Except.ok v ↔ assocLookup tbl k = some v := by
  unfold dictGet
  cases h : assocLookup tbl k <;> simp [h]

/-- A dict lookup on a missing key raises `KeyError` on that key. -/
theorem dictGet_none {tbl : List (List Char × List Char)} {k : List Char}
    (h : assocLookup tbl k = none) :
    dictGet tbl k = Except.error (PyErr.keyError k) := by
  unfold dictGet
  rw [h]

/-- `muxOf` on a digit character. -/
theorem muxOf_digit {c : Char} (h : c.isDigit = true) :
    muxOf c = Except.ok (PyVal.int (c.toNat - 48)) := by
  have hO : c ≠ 'O' := by
    intro he
    subst he
    simp at h
  simp [muxOf, hO, pyIntOfChar, h, Except.map]

/-- `muxOf` on a character that is neither `'O'` nor a digit raises
`ValueError`. -/
theorem muxOf_valueError {c : Char} (hO : c ≠ 'O') (h : c.isDigit = false) :
    muxOf c = Except.error PyErr.valueError := by
  simp [muxOf, hO, pyIntOfChar, h, Except.map]

/-- Inversion of a successful `muxOf`. -/
theorem muxOf_ok_inv {c : Char} {v : PyVal} (h : muxOf c = Except.ok v) :
    (c = 'O' ∧ v = PyVal.str "off".toList) ∨
    (c ≠ 'O' ∧ c.isDigit = true ∧ v = PyVal.int (c.toNat - 48)) := by
  by_cases hO : c = 'O'
  · subst hO
    simp [muxOf] at h
    exact Or.inl ⟨rfl, h.symm⟩
  · by_cases hd : c.isDigit
    · rw [muxOf_digit hd] at h
      cases h
      exact Or.inr ⟨hO, hd, rfl⟩
    · rw [muxOf_valueError hO (by simpa using hd)] at h
      exact absurd h (by simp)

/-- Forward evaluation of `state_to_dict` when every fallible step
succeeds. -/
theorem state_to_dict_eval {s : List Char} {m it : List Char}
    {c25 c27 c29 : Char} {mux : PyVal}
    (hm : assocLookup CODE_TO_MODE (pySlice s 12 14) = some m)
    (hit : assocLookup INT_TIMES (pySlice s 18 20) = some it)
    (h25 : s.get? 25 = some c25)
    (hmux : muxOf c25 = Except.ok mux)
    (h27 : s.get? 27 = some c27)
    (h29 : s.get? 29 = some c29) :
    state_to_dict s = Except.ok
      ⟨m, pySlice s 14 16,
       (if pySlice s 16 18 = "A1".toList then "enabled".toList else "disabled".toList),
       it,
       (if pySlice s 20 22 = "S1".toList then "started".toList else "stopped".toList),
       (if pySlice s 22 24 = "Q0".toList then "without".toList else "with".toList),
       mux,
       (if c27 = '1' then "on".toList else "off".toList),
       c29⟩ := by
  simp only [state_to_dict, dictGet, pyIndex, hm, hit, h25, h27, h29, hmux]

/-- Inversion of a successful `state_to_dict`: every fallible step
succeeded and each field is determined by its offsets. -/
theorem state_to_dict_ok_inv {s : List Char} {r : StateDict}
    (h : state_to_dict s = Except.ok r) :
    assocLookup CODE_TO_MODE (pySlice s 12 14) = some r.mode ∧
    r.range = pySlice s 14 16 ∧
    r.autoranging =
      (if pySlice s 16 18 = "A1".toList then "enabled".toList else "disabled".toList) ∧
    assocLookup INT_TIMES (pySlice s 18 20) = some r.integrationTime ∧
    r.continuous =
      (if pySlice s 20 22 = "S1".toList then "started".toList else "stopped".toList) ∧
    r.srqStatus =
      (if pySlice s 22 24 = "Q0".toList then "without".toList else "with".toList) ∧
    (∃ c, s.get? 25 = some c ∧
      ((c = 'O' ∧ r.muxChannel = PyVal.str "off".toList) ∨
       (c ≠ 'O' ∧ c.isDigit = true ∧ r.muxChannel = PyVal.int (c.toNat - 48)))) ∧
    (∃ c, s.get? 27 = some c ∧
      r.displayMode = (if c = '1' then "on".toList else "off".toList)) ∧
    s.get? 29 = some r.latestKey := by
  simp only [state_to_dict] at h
  split at h
  · exact absurd h (by simp)
  · rename_i m hm
    split at h
    · exact absurd h (by simp)
    · rename_i it hit
      split at h
      · exact absurd h (by simp)
      · rename_i c25 h25
        split at h
        · exact absurd h (by simp)
        · rename_i mux hmux
          split at h
          · exact absurd h (by simp)
          · rename_i c27 h27
            split at h
            · exact absurd h (by simp)
            · rename_i c29 h29
              injection h with h
              subst h
              refine ⟨dictGet_ok_iff.mp hm, rfl, rfl, dictGet_ok_iff.mp hit,
                rfl, rfl, ⟨c25, pyIndex_ok h25, ?_⟩,
                ⟨c27, pyIndex_ok h27, rfl⟩, pyIndex_ok h29⟩
              rcases muxOf_ok_inv hmux with ⟨hO, hv⟩ | ⟨hO, hd, hv⟩
              · exact Or.inl ⟨hO, by rw [hv]⟩
              · exact Or.inr ⟨hO, hd, by rw [hv]⟩

/-- A successful decode forces the raw string to reach offset 29, hence
length at least 30. -/
theorem state_to_dict_ok_length {s : List Char} {r : StateDict}
    (h : state_to_dict s = Except.ok r) : 30 ≤ s.length := by
  have h29 := (state_to_dict_ok_inv h).2.2.2.2.2.2.2.2
  obtain ⟨hlt, -⟩ := List.get?_eq_some.mp h29
  omega

/-- `state_to_dict` propagates a mode-lookup failure. -/
theorem state_to_dict_mode_error {s : List Char} {e : PyErr}
    (h : dictGet CODE_TO_MODE (pySlice s 12 14) = Except.error e) :
    state_to_dict s = Except.error e := by
  simp only [state_to_dict, h]

/-- `state_to_dict` propagates an integration-time-lookup failure. -/
theorem state_to_dict_itime_error {s : List Char} {m : List Char} {e : PyErr}
    (hm : dictGet CODE_TO_MODE (pySlice s 12 14) = Except.ok m)
    (h : dictGet INT_TIMES (pySlice s 18 20) = Except.error e) :
    state_to_dict s = Except.error e := by
  simp only [state_to_dict, hm, h]

/-- Claim C1: the mode mapping is a bijection between the 9 symbolic mode
names and their 2-character codes: mode names are pairwise distinct, codes
are pairwise distinct, `CODE_TO_MODE` is exactly the inverse of `MODES`,
and for every mode name `m` of the table,
`code_to_mode(mode_to_code(m)) = m`. -/
theorem mode_map_bijection :
    MODES.length = 9 ∧
    (MODES.map Prod.fst).Nodup ∧
    (MODES.map Prod.snd).Nodup ∧
    CODE_TO_MODE = MODES.map (fun p => (p.2, p.1)) ∧
    ∀ m ∈ MODES.map Prod.fst, (mode_to_code m).bind code_to_mode = some m := by
  refine ⟨rfl, by decide, by decide, by decide, by decide⟩

/-- Claim C2: any raw status string carrying `VD`, `02`, `A1`, `T3`, `S1`,
`Q0` in the slice fields `[12:14]` through `[22:24]` and `3`, `1`, `5` at
offsets 25, 27, 29 — with arbitrary filler characters everywhere else —
decodes successfully to mode "direct voltage", range "02", autoranging
"enabled", integration time "1 s", continuous "started", SRQ status
"without", multiplexer channel the integer 3, display mode "on" and
latest pressed key "5". -/
theorem decode_concrete_scenario (s : List Char)
    (h1 : pySlice s 12 14 = "VD".toList) (h2 : pySlice s 14 16 = "02".toList)
    (h3 : pySlice s 16 18 = "A1".toList) (h4 : pySlice s 18 20 = "T3".toList)
    (h5 : pySlice s 20 22 = "S1".toList) (h6 : pySlice s 22 24 = "Q0".toList)
    (h7 : s.get? 25 = some '3') (h8 : s.get? 27 = some '1')
    (h9 : s.get? 29 = some '5') :
    state_to_dict s = Except.ok sampleRecord := by
  have hm : assocLookup CODE_TO_MODE (pySlice s 12 14) = some "direct voltage".toList := by
    rw [h1]; decide
  have hit : assocLookup INT_TIMES (pySlice s 18 20) = some "1 s".toList := by
    rw [h4]; decide
  have hmux : muxOf '3' = Except.ok (PyVal.int 3) := by decide
  rw [state_to_dict_eval hm hit h7 hmux h8 h9, h2, h3, h5, h6]
  rfl

/-- Witness for C2 at the concrete 30-character string `sampleStatus`. -/
theorem decode_concrete_scenario_witness :
    state_to_dict sampleStatus = Except.ok sampleRecord :=
  decode_concrete_scenario sampleStatus (by decide) (by decide) (by decide)
    (by decide) (by decide) (by decide) (by decide) (by decide) (by decide)

/-- Counterexample to C3 as stated: a 29-character string of spaces is
shorter than 30 and does make `state_to_dict` fail, but the failure is a
key-not-found error on the mode field, not an out-of-bounds access
error. -/
theorem short_string_error_kind_counterexample :
    (List.replicate 29 ' ').length = 29 ∧
    state_to_dict (List.replicate 29 ' ') = Except.error (PyErr.keyError [' ', ' ']) ∧
    state_to_dict (List.replicate 29 ' ') ≠ Except.error PyErr.indexError := by
  decide

/-- Claim C3 (amended): every raw status string shorter than 30
characters makes `state_to_dict` fail; a length-29 string whose decoded
code fields are all valid fails with the out-of-bounds access error,
while other short strings may fail with a key-not-found or parse error
first. -/
theorem short_string_fails (s : List Char) (hlen : s.length < 30) :
    (∃ e, state_to_dict s = Except.error e) ∧
    (s.length = 29 →
     (assocLookup CODE_TO_MODE (pySlice s 12 14)).isSome →
     (assocLookup INT_TIMES (pySlice s 18 20)).isSome →
     (∃ c, s.get? 25 = some c ∧ (c = 'O' ∨ c.isDigit = true)) →
     state_to_dict s = Except.error PyErr.indexError) := by
  constructor
  · cases hd : state_to_dict s with
    | error e => exact ⟨e, rfl⟩
    | ok r => exact absurd (state_to_dict_ok_length hd) (by omega)
  · intro h29 hm hit hc
    obtain ⟨c, hc25, hOd⟩ := hc
    obtain ⟨m, hm⟩ := Option.isSome_iff_exists.mp hm
    obtain ⟨it, hit⟩ := Option.isSome_iff_exists.mp hit
    have h27 := List.get?_eq_get (show 27 < s.length by omega)
    have h29n : s.get? 29 = none := List.get?_eq_none.mpr (by omega)
    have hmux : ∃ v, muxOf c = Except.ok v := by
      rcases hOd with hO | hd
      · exact ⟨PyVal.str "off".toList, by rw [hO]; decide⟩
      · exact ⟨PyVal.int (c.toNat - 48), muxOf_digit hd⟩
    obtain ⟨v, hmux⟩ := hmux
    simp only [state_to_dict, dictGet, pyIndex, hm, hit, hc25, h27, h29n, hmux]

/-- Witness for C3 (amended) at the 29-character string `sampleStatus29`
with valid code fields: the decode fails with the out-of-bounds error. -/
theorem short_string_fails_witness :
    state_to_dict sampleStatus29 = Except.error PyErr.indexError :=
  (short_string_fails sampleStatus29 (by decide)).2 (by decide) (by decide)
    (by decide) ⟨'3', by decide, Or.inr (by decide)⟩

/-- Counterexample to C4 as stated: the 30-character string of `X`
characters has a multiplexer character `'X'` that is neither `'O'` nor a
digit, yet `state_to_dict` fails with a key-not-found error on the mode
field, not with a numeric-parse error. -/
theorem mux_channel_counterexample :
    30 ≤ (List.replicate 30 'X').length ∧
    (List.replicate 30 'X').get? 25 = some 'X' ∧
    'X' ≠ 'O' ∧ 'X'.isDigit = false ∧
    state_to_dict (List.replicate 30 'X') = Except.error (PyErr.keyError ['X', 'X']) ∧
    state_to_dict (List.replicate 30 'X') ≠ Except.error PyErr.valueError := by
  decide

/-- Claim C4 (amended): for a raw status string of length at least 30
whose mode and integration-time codes are valid, the multiplexer-channel
field is decoded from the single character at offset 25: `'O'` yields the
string "off" (not the integer zero), a decimal digit yields that digit as
an integer, and any other character makes `state_to_dict` fail with the
numeric-parse error. -/
theorem mux_channel_decode (s : List Char) (hlen : 30 ≤ s.length)
    (hm : (assocLookup CODE_TO_MODE (pySlice s 12 14)).isSome)
    (hit : (assocLookup INT_TIMES (pySlice s 18 20)).isSome)
    (c : Char) (hc : s.get? 25 = some c) :
    (c = 'O' → ∃ r, state_to_dict s = Except.ok r ∧
       r.muxChannel = PyVal.str "off".toList ∧ r.muxChannel ≠ PyVal.int 0) ∧
    (c.isDigit = true → ∃ r, state_to_dict s = Except.ok r ∧
       r.muxChannel = PyVal.int (c.toNat - 48)) ∧
    (c ≠ 'O' → c.isDigit = false →
       state_to_dict s = Except.error PyErr.valueError) := by
  obtain ⟨m, hm⟩ := Option.isSome_iff_exists.mp hm
  obtain ⟨it, hit⟩ := Option.isSome_iff_exists.mp hit
  have h27 := List.get?_eq_get (show 27 < s.length by omega)
  have h29 := List.get?_eq_get (show 29 < s.length by omega)
  refine ⟨?_, ?_, ?_⟩
  · intro hO
    subst hO
    exact ⟨_, state_to_dict_eval hm hit hc (by decide) h27 h29, rfl, by simp⟩
  · intro hd
    exact ⟨_, state_to_dict_eval hm hit hc (muxOf_digit hd) h27 h29, rfl⟩
  · intro hO hd
    simp only [state_to_dict, dictGet, pyIndex, hm, hit, hc, muxOf_valueError hO hd]

/-- Witness for C4 (amended) at `muxOffStatus`, whose offset-25 character
is `'O'`: the decoded channel is the string "off", not the integer
zero. -/
theorem mux_channel_decode_witness :
    ∃ r, state_to_dict muxOffStatus = Except.ok r ∧
      r.muxChannel = PyVal.str "off".toList ∧ r.muxChannel ≠ PyVal.int 0 :=
  (mux_channel_decode muxOffStatus (by decide) (by decide) (by decide) 'O'
    (by decide)).1 rfl

/-- Claim C5: a successful decode's integration-time field is exactly the
`INT_TIMES` lookup of the `[18:20]` slice, and whenever that slice is not
a key of the table (for a string of length at least 30), `state_to_dict`
fails with a key-not-found error. -/
theorem integration_time_decode :
    (∀ s r, state_to_dict s = Except.ok r →
       assocLookup INT_TIMES (pySlice s 18 20) = some r.integrationTime) ∧
    (∀ s : List Char, 30 ≤ s.length →
       assocLookup INT_TIMES (pySlice s 18 20) = none →
       ∃ k, state_to_dict s = Except.error (PyErr.keyError k)) := by
  constructor
  · intro s r h
    exact (state_to_dict_ok_inv h).2.2.2.1
  · intro s hlen hnone
    cases hm : assocLookup CODE_TO_MODE (pySlice s 12 14) with
    | none => exact ⟨_, state_to_dict_mode_error (dictGet_none hm)⟩
    | some m =>
      exact ⟨_, state_to_dict_itime_error (dictGet_ok_iff.mpr hm) (dictGet_none hnone)⟩

/-- Witness for C5: on `sampleStatus` the decoded integration time is the
table entry for `T3`, and on `badTimeStatus` (code `T9`) the decode fails
with a key-not-found error. -/
theorem integration_time_decode_witness :
    assocLookup INT_TIMES (pySlice sampleStatus 18 20) = some sampleRecord.integrationTime ∧
    ∃ k, state_to_dict badTimeStatus = Except.error (PyErr.keyError k) :=
  ⟨integration_time_decode.1 sampleStatus sampleRecord (by decide),
   integration_time_decode.2 badTimeStatus (by decide) (by decide)⟩

/-- Claim C6: setting `integration_time` to any value outside
{"100ms","1s","10s"} fails with the invalid-choice error and transmits no
command — validation precedes any write. -/
theorem integration_time_invalid_choice (v : PyKey)
    (h : ∀ p ∈ integration_time_values, v ≠ p.1) :
    set_integration_time v = Except.error PyErr.invalidChoice ∧
    commandsSent (set_integration_time v) = [] := by
  have hmem : (integration_time_values.any fun p => p.1 = v) = false := by
    cases hv : integration_time_values.any fun p => p.1 = v
    · rfl
    · exfalso
      obtain ⟨p, hp, hpv⟩ := List.any_eq_true.mp hv
      exact h p hp (of_decide_eq_true hpv).symm
  have hset : set_integration_time v = Except.error PyErr.invalidChoice := by
    simp [set_integration_time, controlSet, strict_discrete_set, hmem]
  exact ⟨hset, by rw [hset]; rfl⟩

/-- Witness for C6 at the out-of-set value `"1 s"` (the set contains
`"1s"`, not `"1 s"`). -/
theorem integration_time_invalid_choice_witness :
    set_integration_time (PyKey.pstr "1 s".toList) = Except.error PyErr.invalidChoice ∧
    commandsSent (set_integration_time (PyKey.pstr "1 s".toList)) = [] :=
  integration_time_invalid_choice (PyKey.pstr "1 s".toList) (by decide)

/-- Claim C7: `autorange` accepts `True`, `False`, "enabled" and
"disabled" as choices; `True` encodes to the same command code as
"enabled" (`A1`) and `False` to the same as "disabled" (`A0`); and the
decoder maps the slice `[16:18]` equal to `A1` to "enabled" and any other
value there to "disabled". -/
theorem autorange_consistency :
    set_autorange (PyKey.pbool true) = Except.ok "A1".toList ∧
    set_autorange (PyKey.pstr "enabled".toList) = Except.ok "A1".toList ∧
    set_autorange (PyKey.pbool false) = Except.ok "A0".toList ∧
    set_autorange (PyKey.pstr "disabled".toList) = Except.ok "A0".toList ∧
    ∀ s r, state_to_dict s = Except.ok r →
      r.autoranging =
        (if pySlice s 16 18 = "A1".toList then "enabled".toList
         else "disabled".toList) := by
  refine ⟨by decide, by decide, by decide, by decide, ?_⟩
  intro s r h
  exact (state_to_dict_ok_inv h).2.2.1

/-- Witness for C7's decoder half at `sampleStatus`. -/
theorem autorange_consistency_witness :
    sampleRecord.autoranging =
      (if pySlice sampleStatus 16 18 = "A1".toList then "enabled".toList
       else "disabled".toList) :=
  autorange_consistency.2.2.2.2 sampleStatus sampleRecord (by decide)

/-- Claim C8, evaluated on the code as written: the `mode` control is
built with no validator, no value table and the non-callable `set_mode`
descriptor as its `set_process`, so setting it — whether to a valid
symbolic name or not — raises a type error, never the invalid-choice
error, and transmits nothing; the identically documented `old_mode`
control does implement the claimed behavior. -/
theorem mode_setter_bug :
    mode_set (PyKey.pstr "kelvin".toList) = Except.error PyErr.typeError ∧
    commandsSent (mode_set (PyKey.pstr "kelvin".toList)) = [] ∧
    mode_set (PyKey.pstr "bogus".toList) = Except.error PyErr.typeError ∧
    old_mode_set (PyKey.pstr "kelvin".toList) = Except.ok "TK".toList ∧
    old_mode_set (PyKey.pstr "bogus".toList) = Except.error PyErr.invalidChoice := by
  decide

/-- Claim C9: `state_to_dict` reads only offsets 12-23, 25, 27 and 29 of
the raw status string: two strings of length at least 30 that agree at
every one of those offsets decode to equal results, whatever the
characters elsewhere. -/
theorem decode_reads_only_read_offsets (s₁ s₂ : List Char)
    (h₁ : 30 ≤ s₁.length) (_h₂ : 30 ≤ s₂.length)
    (hagree : ∀ i ∈ readOffsets, s₁.get? i = s₂.get? i) :
    state_to_dict s₁ = state_to_dict s₂ := by
  have slice_eq : ∀ a, a ∈ readOffsets → (a + 1) ∈ readOffsets → a + 2 ≤ 30 →
      pySlice s₁ a (a + 2) = pySlice s₂ a (a + 2) := by
    intro a ha ha1 hb
    have hc := List.get?_eq_get (show a < s₁.length by omega)
    have hd := List.get?_eq_get (show a + 1 < s₁.length by omega)
    have hc₂ := (hagree a ha).symm.trans hc
    have hd₂ := (hagree (a + 1) ha1).symm.trans hd
    rw [pySlice_pair hc hd, pySlice_pair hc₂ hd₂]
  have e1 : pySlice s₁ 12 14 = pySlice s₂ 12 14 :=
    slice_eq 12 (by decide) (by decide) (by decide)
  have e2 : pySlice s₁ 14 16 = pySlice s₂ 14 16 :=
    slice_eq 14 (by decide) (by decide) (by decide)
  have e3 : pySlice s₁ 16 18 = pySlice s₂ 16 18 :=
    slice_eq 16 (by decide) (by decide) (by decide)
  have e4 : pySlice s₁ 18 20 = pySlice s₂ 18 20 :=
    slice_eq 18 (by decide) (by decide) (by decide)
  have e5 : pySlice s₁ 20 22 = pySlice s₂ 20 22 :=
    slice_eq 20 (by decide) (by decide) (by decide)
  have e6 : pySlice s₁ 22 24 = pySlice s₂ 22 24 :=
    slice_eq 22 (by decide) (by decide) (by decide)
  have i25 := hagree 25 (by decide)
  have i27 := hagree 27 (by decide)
  have i29 := hagree 29 (by decide)
  simp only [state_to_dict, pyIndex, e1, e2, e3, e4, e5, e6, i25, i27, i29]

/-- Witness for C9 at `sampleStatus` and `sampleStatusAlt`, which differ
at every filler position. -/
theorem decode_reads_only_read_offsets_witness :
    state_to_dict sampleStatus = state_to_dict sampleStatusAlt :=
  decode_reads_only_read_offsets sampleStatus sampleStatusAlt (by decide)
    (by decide) (by decide)

/-- Claim C10: the voltage, resistance, current and temperature
measurement properties all issue the same `P0` query and apply the same
`get_process`, which returns exactly the first 12 characters of the raw
response, so on any raw response all four agree. -/
theorem measurement_properties_agree :
    voltage_command = "P0".toList ∧
    resistance_command = voltage_command ∧
    current_command = voltage_command ∧
    temperature_command = voltage_command ∧
    ∀ x : List Char,
      voltage_get_process x = x.take 12 ∧
      resistance_get_process x = voltage_get_process x ∧
      current_get_process x = voltage_get_process x ∧
      temperature_get_process x = voltage_get_process x := by
  refine ⟨rfl, rfl, rfl, rfl, fun x => ⟨?_, rfl, rfl, rfl⟩⟩
  simp [voltage_get_process, pySlice]

end Prema6000
